import Mathlib

/-!
Shallow embedding of the salvo-captcha verification engine.

The definitions below are translated from the Rust sources:
  * `CaptchaState`, `handle`, `get_captcha_state` from `src/lib.rs`
  * `MemoryStorage` and its four operations from `src/storage/memory_storage.rs`
  * the header finder from `src/finder/header_finder.rs`

Machine integers (`u64` timestamps) are modelled as `Nat` with explicit
wrap-around modulo `2 ^ 64` where the source performs unchecked subtraction.
Fallible storage calls are modelled with `Except`.
-/

namespace SalvoCaptcha

/-- The `CaptchaState` enum of `src/lib.rs` (lines 64-81). -/
inductive CaptchaState where
  | Skipped
  | Passed
  | TokenNotFound
  | AnswerNotFound
  | WrongToken
  | WrongAnswer
  | StorageError
deriving DecidableEq, Repr

/-- The `#[default]` variant of `CaptchaState` (the `Default` derive picks `Skipped`). -/
def CaptchaState.default : CaptchaState := CaptchaState.Skipped

/-- `CAPTCHA_STATE_KEY` from `src/lib.rs` line 30. -/
def CAPTCHA_STATE_KEY : String := "::salvo_captcha::captcha_state"

/-- ASCII lower-casing of a single character, as Rust's `to_ascii_lowercase`
performs on each byte: `A`..`Z` (65..90) map down by 32, all else unchanged. -/
def asciiToLower (c : Char) : Char :=
  if 65 ≤ c.toNat ∧ c.toNat ≤ 90 then Char.ofNat (c.toNat + 32) else c

/-- Rust's `str::eq_ignore_ascii_case`: equality after ASCII lower-casing
every character. -/
def eqIgnoreAsciiCase (s a : String) : Bool :=
  s.data.map asciiToLower == a.data.map asciiToLower

/-- The comparison performed by `Captcha::handle` in `src/lib.rs` lines 256-258:
`(captch_answer == answer && self.case_sensitive) || captch_answer.eq_ignore_ascii_case(&answer)`. -/
def answersMatch (case_sensitive : Bool) (stored submitted : String) : Bool :=
  ((stored == submitted) && case_sensitive) || eqIgnoreAsciiCase stored submitted

/-! ## MemoryStorage (`src/storage/memory_storage.rs`)

The `HashMap<String, (u64, String)>` behind the `RwLock` is modelled as an
association list from token to `(creation timestamp, answer)`; `insert`
replaces any previous binding of the same key, as `HashMap::insert` does. -/

/-- The in-memory store: token to (creation time in seconds, answer). -/
abbrev MemoryStorage : Type := List (String × Nat × String)

/-- `2 ^ 64`, the modulus of Rust's `u64`. -/
def U64_MOD : Nat := 2 ^ 64

/-- Wrapping `u64` subtraction (release-profile semantics of `a - b`). -/
def u64Sub (a b : Nat) : Nat :=
  (a % U64_MOD + (U64_MOD - b % U64_MOD)) % U64_MOD

/-- `u64::checked_sub`: `none` exactly when the debug-profile subtraction
would overflow (panic). -/
def checkedSub (a b : Nat) : Option Nat :=
  if b ≤ a then some (a - b) else none

/-- `MemoryStorage::store_answer` (lines 38-44): generate a fresh token
(modelled as the `token` argument, standing for the random UUID v4 text),
insert `(now, answer)` under it, return the token. -/
def MemoryStorage.store_answer (store : MemoryStorage) (now : Nat)
    (token answer : String) : String × MemoryStorage :=
  (token, (token, now, answer) :: store.filter (fun kv => kv.1 != token))

/-- `MemoryStorage::get_answer` (lines 46-49): look the token up, return the
stored answer without the timestamp. -/
def MemoryStorage.get_answer (store : MemoryStorage) (token : String) :
    Option String :=
  (store.lookup token).map (fun v => v.2)

/-- `MemoryStorage::clear_expired` (lines 51-58): compute
`expired_after = now() - expired_after.as_secs()` by unchecked `u64`
subtraction, then retain the entries whose timestamp is strictly greater. -/
def MemoryStorage.clear_expired (store : MemoryStorage)
    (now expired_after : Nat) : MemoryStorage :=
  let cutoff := u64Sub now expired_after
  store.filter (fun kv => decide (cutoff < kv.2.1))

/-- `MemoryStorage::clear_by_token` (lines 60-64): retain every entry whose
key differs from the token. -/
def MemoryStorage.clear_by_token (store : MemoryStorage) (token : String) :
    MemoryStorage :=
  store.filter (fun kv => kv.1 != token)

/-! ## CacacheStorage (`src/storage/cacache_storage.rs`)

The persistent cacache index is modelled as an association list from entry
key to `(creation time in milliseconds, stored answer)`; the index holds one
addressable entry per key, and `index::ls` yields each entry's metadata
(`meta.key`, `meta.time`). -/

/-- The persistent store: key to (creation time in milliseconds, answer). -/
abbrev CacacheStorage : Type := List (String × Nat × String)

/-- `CacacheStorage::get_answer` (lines 52-71): `cacache::read` for the
token; `EntryNotFound` becomes `none`, a hit returns the stored UTF-8
answer. -/
def CacacheStorage.get_answer (cache : CacacheStorage) (token : String) :
    Option String :=
  (cache.lookup token).map (fun v => v.2)

/-- `CacacheStorage::clear_expired` (lines 73-97): list the index, collect
every key with `now >= meta.time + expired_after` (both in milliseconds)
and remove those entries fully, swallowing individual removal failures;
the entries with `now < meta.time + expired_after` remain. -/
def CacacheStorage.clear_expired (cache : CacacheStorage)
    (now expired_after : Nat) : CacacheStorage :=
  cache.filter (fun kv => decide (now < kv.2.1 + expired_after))

/-! ## The generic storage interface and the middleware handler -/

/-- The two `CaptchaStorage` operations `Captcha::handle` uses, over backend
state `σ` and backend error `ε` (`src/storage/mod.rs`). `get_answer` and
`clear_by_token` thread the backend state explicitly. -/
structure StorageModel (σ ε : Type) where
  get_answer : σ → String → Except ε (Option String) × σ
  clear_by_token : σ → String → Except ε Unit × σ

/-- Result of one `Captcha::handle` call: the `CaptchaState` inserted into
the depot, the backend state afterwards, and the trace of storage calls
(tokens passed to `get_answer` and to `clear_by_token`). -/
structure HandleResult (σ : Type) where
  state : CaptchaState
  storage : σ
  gets : List String
  clears : List String

/-- `Captcha::handle` from `src/lib.rs` lines 212-276. `skipped` is the
skipper's verdict on the request; `token_found` and `answer_found` are the
finder's `Option<Option<String>>` results. The match arms mirror the source:
`Some(Some(v))` proceeds, `Some(None)` gives `TokenNotFound` /
`AnswerNotFound`, `None` gives `WrongToken` / `WrongAnswer`; on a storage
hit the answers are compared and on a match `clear_by_token` runs with its
`Result` discarded (`.ok()`). -/
def handle {σ ε : Type} (M : StorageModel σ ε) (case_sensitive skipped : Bool)
    (token_found answer_found : Option (Option String)) (st : σ) :
    HandleResult σ :=
  if skipped then ⟨CaptchaState.Skipped, st, [], []⟩
  else
    match token_found with
    | some (some token) =>
      match answer_found with
      | some (some answer) =>
        match M.get_answer st token with
        | (Except.ok (some captch_answer), st1) =>
          if answersMatch case_sensitive captch_answer answer then
            ⟨CaptchaState.Passed, (M.clear_by_token st1 token).2, [token], [token]⟩
          else
            ⟨CaptchaState.WrongAnswer, st1, [token], []⟩
        | (Except.ok none, st1) => ⟨CaptchaState.WrongToken, st1, [token], []⟩
        | (Except.error _, st1) => ⟨CaptchaState.StorageError, st1, [token], []⟩
      | some none => ⟨CaptchaState.AnswerNotFound, st, [], []⟩
      | none => ⟨CaptchaState.WrongAnswer, st, [], []⟩
    | some none => ⟨CaptchaState.TokenNotFound, st, [], []⟩
    | none => ⟨CaptchaState.WrongToken, st, [], []⟩

/-- The `MemoryStorage` backend packaged for `handle`; its error type is
`Infallible`, modelled by `Empty`. -/
def memoryModel : StorageModel MemoryStorage Empty where
  get_answer := fun st t => (Except.ok (st.get_answer t), st)
  clear_by_token := fun st t => (Except.ok (), st.clear_by_token t)

/-- `Captcha::handle` specialised to the in-memory backend. -/
def handleMemory (case_sensitive skipped : Bool)
    (token_found answer_found : Option (Option String)) (st : MemoryStorage) :
    HandleResult MemoryStorage :=
  handle memoryModel case_sensitive skipped token_found answer_found st

/-- A backend whose deletion always fails with an I/O error: exercises the
`.ok()`-discarded `clear_by_token` result in `handle`. -/
def failingClearModel : StorageModel MemoryStorage String where
  get_answer := fun st t => (Except.ok (st.get_answer t), st)
  clear_by_token := fun st _ => (Except.error "io error", st)

/-- A backend whose lookup always fails with an I/O error. -/
def failingGetModel : StorageModel MemoryStorage String where
  get_answer := fun st _ => (Except.error "io error", st)
  clear_by_token := fun st t => (Except.ok (), st.clear_by_token t)

/-! ## Header finder (`src/finder/header_finder.rs`) and depot -/

/-- A header value: `some s` when the bytes form a valid visible string
(`to_str` succeeds), `none` otherwise. The header map is an association
list from header name to value. -/
def CaptchaHeaderFinder.find_token (headers : List (String × Option String))
    (token_header : String) : Option (Option String) :=
  headers.lookup token_header

/-- The depot slice holding the captcha state, keyed by `CAPTCHA_STATE_KEY`. -/
abbrev Depot : Type := List (String × CaptchaState)

/-- `CaptchaDepotExt::get_captcha_state` (`src/lib.rs` lines 200-204):
`self.get(CAPTCHA_STATE_KEY).cloned().unwrap_or_default()`. -/
def get_captcha_state (depot : Depot) : CaptchaState :=
  (depot.lookup CAPTCHA_STATE_KEY).getD CaptchaState.default

/-! ## Helper lemmas -/

/-- ASCII-case-insensitive equality is reflexive. -/
lemma eqIgnoreAsciiCase_refl (s : String) : eqIgnoreAsciiCase s s = true := by
  simp [eqIgnoreAsciiCase]

/-- The handler's comparison accepts the stored answer itself, whatever the
case policy. -/
lemma answersMatch_self (cs : Bool) (s : String) : answersMatch cs s s = true := by
  unfold answersMatch
  simp [eqIgnoreAsciiCase_refl]

/-- After `clear_by_token` the token no longer resolves. -/
lemma get_answer_clear_by_token (st : MemoryStorage) (token : String) :
    (st.clear_by_token token).get_answer token = none := by
  unfold MemoryStorage.clear_by_token MemoryStorage.get_answer
  induction st with
  | nil => rfl
  | cons kv tl ih =>
    obtain ⟨k, v⟩ := kv
    rw [List.filter_cons]
    by_cases hk : k = token
    · rw [if_neg (by simp [hk])]
      exact ih
    · rw [if_pos (by simp [hk])]
      have hbe : (token == k) = false := by
        simp [Ne.symm hk]
      simp [List.lookup, hbe, ih]

/-- A key whose every binding fails the filter predicate no longer resolves
after the filter. -/
lemma lookup_filter_eq_none (p : String × Nat × String → Bool)
    (st : List (String × Nat × String)) (token : String)
    (h : ∀ v, (token, v) ∈ st → p (token, v) = false) :
    List.lookup token (st.filter p) = none := by
  induction st with
  | nil => rfl
  | cons kv tl ih =>
    obtain ⟨k, v⟩ := kv
    rw [List.filter_cons]
    by_cases hk : k = token
    · subst hk
      rw [if_neg (by simp [h v (List.mem_cons_self _ _)])]
      exact ih (fun w hw => h w (List.mem_cons_of_mem _ hw))
    · by_cases hp : p (k, v) = true
      · rw [if_pos hp]
        have hbe : (token == k) = false := by
          simp [Ne.symm hk]
        simp only [List.lookup, hbe]
        exact ih (fun w hw => h w (List.mem_cons_of_mem _ hw))
      · rw [if_neg hp]
        exact ih (fun w hw => h w (List.mem_cons_of_mem _ hw))

/-- Unfolding of the in-memory handler once both extractions succeeded. -/
lemma handleMemory_some_some (cs : Bool) (token ans : String) (st : MemoryStorage) :
    handleMemory cs false (some (some token)) (some (some ans)) st =
      match st.get_answer token with
      | some s =>
        if answersMatch cs s ans then
          ⟨CaptchaState.Passed, st.clear_by_token token, [token], [token]⟩
        else ⟨CaptchaState.WrongAnswer, st, [token], []⟩
      | none => ⟨CaptchaState.WrongToken, st, [token], []⟩ := by
  cases hg : st.get_answer token with
  | none =>
    have hM : memoryModel.get_answer st token = (Except.ok none, st) := by
      simp [memoryModel, hg]
    simp only [handleMemory, handle]
    rw [hM]
    rfl
  | some s =>
    have hM : memoryModel.get_answer st token = (Except.ok (some s), st) := by
      simp [memoryModel, hg]
    simp only [handleMemory, handle]
    rw [hM]
    rfl

/-! ## Claim theorems -/

/-- C1: the case-sensitive policy is a no-op in the code. The handler's
condition `(stored == submitted && case_sensitive) || eq_ignore_ascii_case`
collapses to the case-insensitive comparison for every flag value, so with
the default case-sensitive policy the stored answer `Hello` still matches
the submitted `hello` and verification passes, where the claim demands
`WrongAnswer`. -/
theorem c1_case_policy_noop :
    (∀ (cs : Bool) (s a : String), answersMatch cs s a = eqIgnoreAsciiCase s a) ∧
    answersMatch true "Hello" "hello" = true ∧
    (handleMemory true false (some (some "t0")) (some (some "hello"))
      [("t0", 0, "Hello")]).state = CaptchaState.Passed := by
  refine ⟨?_, by decide, by decide⟩
  intro cs s a
  unfold answersMatch
  cases hb : s == a
  · simp
  · have hsa : s = a := eq_of_beq hb
    subst hsa
    simp [eqIgnoreAsciiCase_refl]

/-- C2: the handler inverts the finder contract. The header finder returns
`none` for an absent header and `some none` for a present-but-malformed one,
yet the handler maps `none` to `WrongToken` and `some none` to
`TokenNotFound` — the opposite of the claimed classification. -/
theorem c2_finder_signals_inverted :
    CaptchaHeaderFinder.find_token [] "x-captcha-token" = none ∧
    (handleMemory true false none (some (some "a")) []).state
      = CaptchaState.WrongToken ∧
    CaptchaHeaderFinder.find_token [("x-captcha-token", none)] "x-captcha-token"
      = some none ∧
    (handleMemory true false (some none) (some (some "a")) []).state
      = CaptchaState.TokenNotFound := by
  exact ⟨by decide, by decide, by decide, by decide⟩

/-- C3: check order. The skip verdict decides first; a failed token
extraction yields a token outcome with no storage access regardless of the
answer; a failed answer extraction yields an answer outcome with no storage
access; any storage access implies the request was not skipped and both
extractions succeeded. -/
theorem c3_check_order {σ ε : Type} (M : StorageModel σ ε) (cs skipped : Bool)
    (tf af : Option (Option String)) (st : σ) :
    (skipped = true →
      (handle M cs skipped tf af st).state = CaptchaState.Skipped ∧
      (handle M cs skipped tf af st).gets = [] ∧
      (handle M cs skipped tf af st).clears = []) ∧
    (skipped = false → tf = none →
      (handle M cs skipped tf af st).state = CaptchaState.WrongToken ∧
      (handle M cs skipped tf af st).gets = [] ∧
      (handle M cs skipped tf af st).clears = []) ∧
    (skipped = false → tf = some none →
      (handle M cs skipped tf af st).state = CaptchaState.TokenNotFound ∧
      (handle M cs skipped tf af st).gets = [] ∧
      (handle M cs skipped tf af st).clears = []) ∧
    (skipped = false → ∀ t, tf = some (some t) → af = none →
      (handle M cs skipped tf af st).state = CaptchaState.WrongAnswer ∧
      (handle M cs skipped tf af st).gets = [] ∧
      (handle M cs skipped tf af st).clears = []) ∧
    (skipped = false → ∀ t, tf = some (some t) → af = some none →
      (handle M cs skipped tf af st).state = CaptchaState.AnswerNotFound ∧
      (handle M cs skipped tf af st).gets = [] ∧
      (handle M cs skipped tf af st).clears = []) ∧
    ((handle M cs skipped tf af st).gets ≠ [] ∨
        (handle M cs skipped tf af st).clears ≠ [] →
      skipped = false ∧ ∃ t a, tf = some (some t) ∧ af = some (some a)) := by
  refine ⟨?_, ?_, ?_, ?_, ?_, ?_⟩
  · rintro rfl; simp [handle]
  · rintro rfl rfl; simp [handle]
  · rintro rfl rfl; simp [handle]
  · rintro rfl t rfl rfl; simp [handle]
  · rintro rfl t rfl rfl; simp [handle]
  · cases skipped
    · cases tf with
      | none => simp [handle]
      | some ot =>
        cases ot with
        | none => simp [handle]
        | some t =>
          cases af with
          | none => simp [handle]
          | some oa =>
            cases oa with
            | none => simp [handle]
            | some a => exact fun _ => ⟨rfl, t, a, rfl, rfl⟩
    · simp [handle]

/-- C4: storing an answer and looking the returned token up yields the
answer exactly as stored. -/
theorem c4_store_get_roundtrip (st : MemoryStorage) (now : Nat)
    (token answer : String) :
    (st.store_answer now token answer).2.get_answer
      (st.store_answer now token answer).1 = some answer := by
  simp [MemoryStorage.store_answer, MemoryStorage.get_answer, List.lookup]

/-- C5: a `Passed` verification consumes the token: the record is gone from
storage and any repeat verification with the same token answers
`WrongToken`. -/
theorem c5_passed_consumes_token (cs : Bool) (token ans ans2 : String)
    (st : MemoryStorage)
    (h : (handleMemory cs false (some (some token)) (some (some ans)) st).state
      = CaptchaState.Passed) :
    (handleMemory cs false (some (some token)) (some (some ans)) st).storage.get_answer
      token = none ∧
    (handleMemory cs false (some (some token)) (some (some ans2))
      (handleMemory cs false (some (some token)) (some (some ans)) st).storage).state
        = CaptchaState.WrongToken := by
  cases hg : st.get_answer token with
  | none =>
    rw [handleMemory_some_some, hg] at h
    simp at h
  | some s =>
    by_cases hm : answersMatch cs s ans
    · have hr : handleMemory cs false (some (some token)) (some (some ans)) st =
          ⟨CaptchaState.Passed, st.clear_by_token token, [token], [token]⟩ := by
        rw [handleMemory_some_some, hg]
        simp [hm]
      rw [hr]
      refine ⟨get_answer_clear_by_token st token, ?_⟩
      rw [handleMemory_some_some, get_answer_clear_by_token]
    · rw [handleMemory_some_some, hg] at h
      simp [hm] at h

/-- C6: a mismatching submission answers `WrongAnswer` and leaves the store
untouched, and a follow-up submission of the stored answer passes. -/
theorem c6_wrong_answer_keeps_record (cs : Bool) (token s a : String)
    (st : MemoryStorage) (hs : st.get_answer token = some s)
    (hm : answersMatch cs s a = false) :
    (handleMemory cs false (some (some token)) (some (some a)) st).state
      = CaptchaState.WrongAnswer ∧
    (handleMemory cs false (some (some token)) (some (some a)) st).storage = st ∧
    (handleMemory cs false (some (some token)) (some (some s)) st).state
      = CaptchaState.Passed := by
  refine ⟨?_, ?_, ?_⟩
  · rw [handleMemory_some_some, hs]; simp [hm]
  · rw [handleMemory_some_some, hs]; simp [hm]
  · rw [handleMemory_some_some, hs]; simp [answersMatch_self]

/-- C7 counterexample: the claim "deletes no record whose age does not
exceed max_age" fails: a record of age exactly `max_age` (timestamp 90,
now 100, max_age 10) is deleted by the sweep. -/
theorem c7_counterexample :
    ¬ (∀ (st : MemoryStorage) (now max_age ts : Nat) (token answer : String),
        (token, ts, answer) ∈ st → now - ts ≤ max_age →
        (token, ts, answer) ∈ st.clear_expired now max_age) := by
  intro h
  exact absurd (h [("t", 90, "a")] 100 10 90 "t" "a" (by decide) (by decide))
    (by decide)

/-- C7 amended: on both backends the sweep keeps a record (timestamp at
most `now`, and for the in-memory backend `max_age ≤ now < 2 ^ 64` so the
cutoff subtraction is defined) exactly when its age is strictly below
`max_age` — equivalently it deletes exactly the records of age at least
`max_age` — and once every binding of a token is at least `max_age` old
(in particular a fresh record when `max_age = 0`), a subsequent
`get_answer` for that token returns `none`. -/
theorem c7_clear_expired_age_at_least (now max_age : Nat)
    (hma : max_age ≤ now) (hnow : now < U64_MOD) :
    (∀ (st : MemoryStorage) (token : String) (ts : Nat) (answer : String),
      ts ≤ now →
      ((token, ts, answer) ∈ st.clear_expired now max_age ↔
        (token, ts, answer) ∈ st ∧ now - ts < max_age)) ∧
    (∀ (st : MemoryStorage) (token : String),
      (∀ ts answer, (token, ts, answer) ∈ st → ts ≤ now ∧ max_age ≤ now - ts) →
      (st.clear_expired now max_age).get_answer token = none) ∧
    (∀ (cache : CacacheStorage) (token : String) (ts : Nat) (answer : String),
      ts ≤ now →
      ((token, ts, answer) ∈ CacacheStorage.clear_expired cache now max_age ↔
        (token, ts, answer) ∈ cache ∧ now - ts < max_age)) ∧
    (∀ (cache : CacacheStorage) (token : String),
      (∀ ts answer, (token, ts, answer) ∈ cache → ts ≤ now ∧ max_age ≤ now - ts) →
      CacacheStorage.get_answer
        (CacacheStorage.clear_expired cache now max_age) token = none) := by
  have hcut : u64Sub now max_age = now - max_age := by
    unfold u64Sub
    rw [Nat.mod_eq_of_lt hnow, Nat.mod_eq_of_lt (lt_of_le_of_lt hma hnow)]
    have e1 : now + (U64_MOD - max_age) = (now - max_age) + U64_MOD := by
      have : max_age ≤ U64_MOD := le_of_lt (lt_of_le_of_lt hma hnow)
      omega
    rw [e1, Nat.add_mod_right]
    exact Nat.mod_eq_of_lt (by omega)
  refine ⟨?_, ?_, ?_, ?_⟩
  · intro st token ts answer hts
    simp only [MemoryStorage.clear_expired, hcut, List.mem_filter,
      decide_eq_true_eq]
    constructor
    · rintro ⟨h1, h2⟩
      exact ⟨h1, by omega⟩
    · rintro ⟨h1, h2⟩
      exact ⟨h1, by omega⟩
  · intro st token h
    simp only [MemoryStorage.get_answer, MemoryStorage.clear_expired, hcut]
    rw [lookup_filter_eq_none]
    · rfl
    · intro v hv
      obtain ⟨h1, h2⟩ := h v.1 v.2 hv
      simp only [decide_eq_false_iff_not]
      omega
  · intro cache token ts answer hts
    simp only [CacacheStorage.clear_expired, List.mem_filter,
      decide_eq_true_eq]
    constructor
    · rintro ⟨h1, h2⟩
      exact ⟨h1, by omega⟩
    · rintro ⟨h1, h2⟩
      exact ⟨h1, by omega⟩
  · intro cache token h
    simp only [CacacheStorage.get_answer, CacacheStorage.clear_expired]
    rw [lookup_filter_eq_none]
    · rfl
    · intro v hv
      obtain ⟨h1, h2⟩ := h v.1 v.2 hv
      simp only [decide_eq_false_iff_not]
      omega

/-- C8: a lookup failure yields `StorageError`; when the answers match, the
outcome is `Passed` for every backend, whatever its `clear_by_token` does
(its result is discarded). -/
theorem c8_storage_error_policy {σ ε : Type} (M : StorageModel σ ε) (cs : Bool)
    (token ans : String) (st : σ) :
    (∀ (e : ε) (st1 : σ), M.get_answer st token = (Except.error e, st1) →
      (handle M cs false (some (some token)) (some (some ans)) st).state
        = CaptchaState.StorageError) ∧
    (∀ (s : String) (st1 : σ), M.get_answer st token = (Except.ok (some s), st1) →
      answersMatch cs s ans = true →
      (handle M cs false (some (some token)) (some (some ans)) st).state
        = CaptchaState.Passed) := by
  constructor
  · intro e st1 hg
    simp [handle, hg]
  · intro s st1 hg hm
    simp [handle, hg, hm]

/-- C9: when `expired_after` exceeds the clock, the `u64` cutoff
subtraction underflows (`checked_sub` is `none`, a debug-build panic), and
under release wrap-around the sweep deletes a record created at the current
instant instead of treating it as unexpired. -/
theorem c9_clear_expired_underflow (now expired_after : Nat)
    (h : now < expired_after) (h2 : expired_after < U64_MOD) :
    checkedSub now expired_after = none ∧
    ∀ (token answer : String),
      MemoryStorage.clear_expired [(token, now, answer)] now expired_after
        = [] := by
  constructor
  · simp only [checkedSub, ite_eq_right_iff]
    intro hle
    omega
  · intro token answer
    have hmod : expired_after % U64_MOD = expired_after := Nat.mod_eq_of_lt h2
    have hnow : now % U64_MOD = now := Nat.mod_eq_of_lt (lt_trans h h2)
    have hcut : u64Sub now expired_after = now + (U64_MOD - expired_after) := by
      unfold u64Sub
      rw [hmod, hnow]
      exact Nat.mod_eq_of_lt (by omega)
    have hnotlt : ¬ (now + (U64_MOD - expired_after) < now) := by omega
    simp [MemoryStorage.clear_expired, hcut, List.filter_cons, hnotlt]

/-- C10: when nothing was inserted under the captcha state key, the depot
reports the default state `Skipped`. -/
theorem c10_absent_state_is_skipped (depot : Depot)
    (h : depot.lookup CAPTCHA_STATE_KEY = none) :
    get_captcha_state depot = CaptchaState.Skipped := by
  simp [get_captcha_state, h, CaptchaState.default]

/-! ## Witnesses -/

theorem c3_order_witness :
    (handle memoryModel true false (some none) (some (some "a")) ([] : MemoryStorage)).state
      = CaptchaState.TokenNotFound ∧
    (handle memoryModel true false (some none) (some (some "a")) ([] : MemoryStorage)).gets
      = [] ∧
    (handle memoryModel true false (some none) (some (some "a")) ([] : MemoryStorage)).clears
      = [] := by
  exact (c3_check_order memoryModel true false (some none) (some (some "a"))
    ([] : MemoryStorage)).2.2.1 rfl rfl

theorem c5_consume_witness :
    (handleMemory true false (some (some "t")) (some (some "a"))
      [("t", 0, "a")]).storage.get_answer "t" = none ∧
    (handleMemory true false (some (some "t")) (some (some "a"))
      (handleMemory true false (some (some "t")) (some (some "a"))
        [("t", 0, "a")]).storage).state = CaptchaState.WrongToken := by
  exact c5_passed_consumes_token true "t" "a" "a" [("t", 0, "a")] (by decide)

theorem c6_keep_witness :
    (handleMemory true false (some (some "t")) (some (some "b"))
      [("t", 0, "a")]).state = CaptchaState.WrongAnswer ∧
    (handleMemory true false (some (some "t")) (some (some "b"))
      [("t", 0, "a")]).storage = [("t", 0, "a")] ∧
    (handleMemory true false (some (some "t")) (some (some "a"))
      [("t", 0, "a")]).state = CaptchaState.Passed := by
  exact c6_wrong_answer_keeps_record true "t" "a" "b" [("t", 0, "a")]
    (by decide) (by decide)

theorem c7_amended_witness :
    (("t", 100, "a") ∈ MemoryStorage.clear_expired [("t", 100, "a")] 100 0 ↔
      ("t", 100, "a") ∈ ([("t", 100, "a")] : MemoryStorage) ∧ 100 - 100 < 0) ∧
    (MemoryStorage.clear_expired [("t", 100, "a")] 100 0).get_answer "t"
      = none ∧
    (("t", 100, "a") ∈ CacacheStorage.clear_expired [("t", 100, "a")] 100 0 ↔
      ("t", 100, "a") ∈ ([("t", 100, "a")] : CacacheStorage) ∧ 100 - 100 < 0) ∧
    CacacheStorage.get_answer
      (CacacheStorage.clear_expired [("t", 100, "a")] 100 0) "t" = none := by
  have h := c7_clear_expired_age_at_least 100 0 (by decide) (by decide)
  have hrec : ∀ (ts : Nat) (answer : String),
      ("t", ts, answer) ∈ ([("t", 100, "a")] : List (String × Nat × String)) →
      ts ≤ 100 ∧ 0 ≤ 100 - ts := by
    intro ts answer hv
    simp only [List.mem_singleton, Prod.mk.injEq] at hv
    obtain ⟨-, h1, -⟩ := hv
    subst h1
    exact ⟨le_refl _, Nat.zero_le _⟩
  exact ⟨h.1 [("t", 100, "a")] "t" 100 "a" (by decide),
    h.2.1 [("t", 100, "a")] "t" hrec,
    h.2.2.1 [("t", 100, "a")] "t" 100 "a" (by decide),
    h.2.2.2 [("t", 100, "a")] "t" hrec⟩

theorem c8_policy_witness :
    (handle failingGetModel true false (some (some "t")) (some (some "a"))
      [("t", 0, "a")]).state = CaptchaState.StorageError ∧
    (handle failingClearModel true false (some (some "t")) (some (some "a"))
      [("t", 0, "a")]).state = CaptchaState.Passed := by
  constructor
  · exact (c8_storage_error_policy failingGetModel true "t" "a"
      [("t", 0, "a")]).1 "io error" [("t", 0, "a")] rfl
  · exact (c8_storage_error_policy failingClearModel true "t" "a"
      [("t", 0, "a")]).2 "a" [("t", 0, "a")] rfl (by decide)

theorem c9_underflow_witness :
    checkedSub 5 10 = none ∧
    MemoryStorage.clear_expired [("t", 5, "a")] 5 10 = [] := by
  have h := c9_clear_expired_underflow 5 10 (by decide) (by decide)
  exact ⟨h.1, h.2 "t" "a"⟩

theorem c10_skipped_witness : get_captcha_state [] = CaptchaState.Skipped := by
  exact c10_absent_state_is_skipped [] rfl

end SalvoCaptcha
